import Mathlib

/-!
Verification development for the `ai-feedback-analyzer` backend.

The Python sources under `backend/app` are shallowly embedded below:
Python `str` becomes `List Char`, Python `int` becomes `Int` or `Nat`,
Python `float` confidence values become `ℚ`, fallible code returns
`Except`/`Option`, and the async database session becomes an explicit
state record.  Library primitives that the code calls (`str.strip`,
`json.loads`, the two `re` patterns, SQL aggregation) are modelled
faithfully next to the code that uses them.
-/

namespace FA

/-- Python strings, embedded as lists of characters. -/
abbrev Str := List Char

/-- Whitespace recognised by Python `str.strip()` (the common ASCII set). -/
def pyWs (c : Char) : Bool :=
  c = ' ' || c = '\t' || c = '\n' || c = '\r' || c = '\x0b' || c = '\x0c'

/-- Model of Python `str.strip()`: drop whitespace from both ends. -/
def pyStrip (s : Str) : Str :=
  List.rdropWhile pyWs (s.dropWhile pyWs)

/-- Model of Python `str.lower()` on ASCII text. -/
def pyLower (s : Str) : Str := s.map Char.toLower

/-- Substring test: does `needle` occur contiguously inside `hay`? -/
def strContains (hay needle : Str) : Bool :=
  (List.range (hay.length + 1)).any (fun i => needle.isPrefixOf (hay.drop i))

/-- Whitespace class of the `re` module's `\s` (ASCII). -/
def reWs (c : Char) : Bool :=
  c = ' ' || c = '\t' || c = '\n' || c = '\r' || c = '\x0b' || c = '\x0c'

/-- Model of `re.sub(r'\s+', ' ', s)`: collapse each maximal whitespace
run to a single space.  The Boolean state records whether the previous
character was whitespace. -/
def collapseWs (s : Str) : Str :=
  (s.foldl
    (fun acc c =>
      if reWs c then (if acc.2 then acc.1 else acc.1 ++ [' '], true)
      else (acc.1 ++ [c], false))
    (([] : Str), false)).1

/-! ## `app/utils/validators.py` -/

/-- `validate_feedback_text`: reject empty/whitespace-only text, reject
cleaned text longer than 5000 characters, collapse inner whitespace. -/
def validate_feedback_text (text : Str) : Except Str Str :=
  if pyStrip text = [] then .error "Feedback text cannot be empty".data
  else
    let cleaned := pyStrip text
    if 5000 < cleaned.length then
      .error "Feedback text cannot exceed 5000 characters".data
    else .ok (collapseWs cleaned)

/-- A Python object appearing in a tags list: either a `str` or some
non-string value (dropped by `validate_tags`). -/
inductive PyObj where
  | str (s : Str)
  | nonStr
deriving DecidableEq

/-- The body of the first loop of `validate_tags`: skip non-strings,
strip, and keep the tag only if non-empty and at most 50 characters. -/
def cleanTag : PyObj → Option Str
  | .str tag =>
      if pyStrip tag ≠ [] ∧ (pyStrip tag).length ≤ 50 then some (pyStrip tag)
      else none
  | .nonStr => none

/-- The second loop of `validate_tags`: drop tags whose lowercased form
is in `seen`, preserving first-seen order. -/
def dedupTags (seen : List Str) : List Str → List Str
  | [] => []
  | t :: rest =>
      if pyLower t ∈ seen then dedupTags seen rest
      else t :: dedupTags (pyLower t :: seen) rest

/-- `validate_tags`: clean, de-duplicate case-insensitively, keep at
most 10 tags.  `none` models the Python argument `None`. -/
def validate_tags (tags : Option (List PyObj)) : List Str :=
  match tags with
  | none => []
  | some ts =>
      if ts = [] then []
      else (dedupTags [] (ts.filterMap cleanTag)).take 10

/-- `validate_pagination`: clamp the page number and page size. -/
def validate_pagination (page pageSize : Int) : Int × Int :=
  ((if page < 1 then 1 else page),
   (if pageSize < 1 then 20 else if 100 < pageSize then 100 else pageSize))

/-- `validate_sentiment`: lowercase and keep only the three literals. -/
def validate_sentiment (sentiment : Option Str) : Option Str :=
  match sentiment with
  | none => none
  | some sv =>
      if sv = [] then none
      else if pyLower sv = "positive".data ∨ pyLower sv = "neutral".data ∨
              pyLower sv = "negative".data then
        some (pyLower sv)
      else none

/-! ## `app/models/schemas.py`: `FeedbackCreate.text`

Pydantic first checks the `Field` constraints `min_length=1` and
`max_length=5000` against the raw string, and only then runs the
`validate_text` after-validator, which rejects whitespace-only text and
returns the stripped string. -/

/-- Validation applied to `FeedbackCreate.text`. -/
def feedbackCreateText (v : Str) : Except Str Str :=
  if v.length < 1 then .error "String should have at least 1 character".data
  else if 5000 < v.length then
    .error "String should have at most 5000 characters".data
  else if pyStrip v = [] then .error "Feedback text cannot be empty".data
  else .ok (pyStrip v)

/-! ## `app/services/ai_service.py`

`OpenRouterClient._parse_json_response` parses model output with
`json.loads` and two `re` fallbacks.  We model JSON values, Python's
`json.loads`, and the two concrete regular expressions. -/

/-- JSON values.  Numbers keep their raw numeral text, which is all the
embedded code ever compares. -/
inductive Json where
  | null
  | bool (b : Bool)
  | num (raw : Str)
  | str (s : Str)
  | arr (elems : List Json)
  | obj (fields : List (Str × Json))

/-- JSON whitespace accepted by `json.loads` between tokens. -/
def jWs (c : Char) : Bool := c = ' ' || c = '\t' || c = '\n' || c = '\r'

/-- Skip JSON whitespace. -/
def skipJWs (s : Str) : Str := s.dropWhile jWs

/-- Hexadecimal digit value, for `\uXXXX` escapes. -/
def hexVal (c : Char) : Option Nat :=
  if '0' ≤ c ∧ c ≤ '9' then some (c.toNat - '0'.toNat)
  else if 'a' ≤ c ∧ c ≤ 'f' then some (c.toNat - 'a'.toNat + 10)
  else if 'A' ≤ c ∧ c ≤ 'F' then some (c.toNat - 'A'.toNat + 10)
  else none

/-- Parse the body of a JSON string (the opening quote already
consumed), honouring the escape sequences of `json.loads` in strict
mode; unescaped control characters are rejected. -/
def parseJString : Str → Option (Str × Str)
  | [] => none
  | '"' :: rest => some ([], rest)
  | '\\' :: esc =>
    match esc with
    | '"' :: r => (parseJString r).map (fun p => ('"' :: p.1, p.2))
    | '\\' :: r => (parseJString r).map (fun p => ('\\' :: p.1, p.2))
    | '/' :: r => (parseJString r).map (fun p => ('/' :: p.1, p.2))
    | 'b' :: r => (parseJString r).map (fun p => ('\x08' :: p.1, p.2))
    | 'f' :: r => (parseJString r).map (fun p => ('\x0c' :: p.1, p.2))
    | 'n' :: r => (parseJString r).map (fun p => ('\n' :: p.1, p.2))
    | 'r' :: r => (parseJString r).map (fun p => ('\r' :: p.1, p.2))
    | 't' :: r => (parseJString r).map (fun p => ('\t' :: p.1, p.2))
    | 'u' :: a :: b :: c :: d :: r =>
      match hexVal a, hexVal b, hexVal c, hexVal d with
      | some x, some y, some z, some w =>
        let n := ((x * 16 + y) * 16 + z) * 16 + w
        if n.isValidChar then
          (parseJString r).map (fun p => (Char.ofNat n :: p.1, p.2))
        else none
      | _, _, _, _ => none
    | _ => none
  | c :: rest =>
    if c.toNat < 32 then none
    else (parseJString rest).map (fun p => (c :: p.1, p.2))

/-- Take a nonempty run of decimal digits. -/
def takeDigits1 (s : Str) : Option (Str × Str) :=
  let ds := s.takeWhile Char.isDigit
  if ds = [] then none else some (ds, s.drop ds.length)

/-- Parse a JSON numeral `-?(0|[1-9][0-9]*)(\.[0-9]+)?([eE][+-]?[0-9]+)?`,
returning the raw text consumed. -/
def parseNumber (s : Str) : Option (Str × Str) :=
  let (sign, s1) : Str × Str := match s with
    | '-' :: r => (['-'], r)
    | _ => ([], s)
  match s1 with
  | '0' :: r => parseNumTail sign ['0'] r
  | c :: _ =>
      if c.isDigit then
        match takeDigits1 s1 with
        | some (ds, r) => parseNumTail sign ds r
        | none => none
      else none
  | [] => none
where
  /-- Optional fraction and exponent after the integer part. -/
  parseNumTail (sign intPart : Str) (s : Str) : Option (Str × Str) :=
    let (frac, s2) : Str × Str := match s with
      | '.' :: r =>
        (match takeDigits1 r with
         | some (ds, r2) => ('.' :: ds, r2)
         | none => ([], '.' :: r))
      | _ => ([], s)
    match s2 with
    | e :: r =>
      if e = 'e' ∨ e = 'E' then
        let (es, r2) : Str × Str := match r with
          | '+' :: r3 => (['+'], r3)
          | '-' :: r3 => (['-'], r3)
          | _ => ([], r)
        match takeDigits1 r2 with
        | some (ds, r3) => some (sign ++ intPart ++ frac ++ e :: es ++ ds, r3)
        | none => some (sign ++ intPart ++ frac, s2)
      else some (sign ++ intPart ++ frac, s2)
    | [] => some (sign ++ intPart ++ frac, [])

mutual

/-- Parse one JSON value (leading whitespace allowed), fuelled. -/
def parseValue : Nat → Str → Option (Json × Str)
  | 0, _ => none
  | fuel + 1, s =>
    let s := skipJWs s
    match s with
    | '\x7b' :: r =>
        let r1 := skipJWs r
        (match r1 with
         | '\x7d' :: r2 => some (Json.obj [], r2)
         | _ => (parseMembers fuel r).map (fun p => (Json.obj p.1, p.2)))
    | '[' :: r =>
        let r1 := skipJWs r
        (match r1 with
         | ']' :: r2 => some (Json.arr [], r2)
         | _ => (parseItems fuel r).map (fun p => (Json.arr p.1, p.2)))
    | '"' :: r => (parseJString r).map (fun p => (Json.str p.1, p.2))
    | _ =>
        if "true".data.isPrefixOf s then some (Json.bool true, s.drop 4)
        else if "false".data.isPrefixOf s then some (Json.bool false, s.drop 5)
        else if "null".data.isPrefixOf s then some (Json.null, s.drop 4)
        else if "NaN".data.isPrefixOf s then some (Json.num "NaN".data, s.drop 3)
        else if "Infinity".data.isPrefixOf s then
          some (Json.num "Infinity".data, s.drop 8)
        else if "-Infinity".data.isPrefixOf s then
          some (Json.num "-Infinity".data, s.drop 9)
        else (parseNumber s).map (fun p => (Json.num p.1, p.2))

/-- Parse the members of a JSON object after the opening brace
(at least one member; the empty object is handled by `parseValue`). -/
def parseMembers : Nat → Str → Option (List (Str × Json) × Str)
  | 0, _ => none
  | fuel + 1, s =>
    match skipJWs s with
    | '"' :: r =>
      match parseJString r with
      | none => none
      | some (k, r1) =>
        match skipJWs r1 with
        | ':' :: r2 =>
          (match parseValue fuel r2 with
           | none => none
           | some (v, r3) =>
             match skipJWs r3 with
             | ',' :: r4 =>
                 (parseMembers fuel r4).map (fun p => ((k, v) :: p.1, p.2))
             | '\x7d' :: r4 => some ([(k, v)], r4)
             | _ => none)
        | _ => none
    | _ => none

/-- Parse the items of a JSON array after the opening bracket
(at least one item; the empty array is handled by `parseValue`). -/
def parseItems : Nat → Str → Option (List Json × Str)
  | 0, _ => none
  | fuel + 1, s =>
    match parseValue fuel s with
    | none => none
    | some (v, r) =>
      match skipJWs r with
      | ',' :: r2 => (parseItems fuel r2).map (fun p => (v :: p.1, p.2))
      | ']' :: r2 => some ([v], r2)
      | _ => none

end

/-- Model of Python `json.loads`: one JSON document with optional
surrounding whitespace; anything else raises `JSONDecodeError`
(modelled as `none`). -/
def json_loads (s : Str) : Option Json :=
  match parseValue (s.length + 1) s with
  | some (v, rest) => if skipJWs rest = [] then some v else none
  | none => none

/-- Model of `re.search(r'\{.*\}', content, re.DOTALL)`: the leftmost
match starts at the first brace that has a closing brace somewhere
after it, and the greedy `.*` extends to the last closing brace of the
whole string. -/
def braceSpan (s : Str) : Option Str :=
  let tail := s.dropWhile (fun c => c ≠ '\x7b')
  let upto := (tail.reverse.dropWhile (fun c => c ≠ '\x7d')).reverse
  if upto = [] then none else some upto

/-- The three-backtick fence. -/
def fence : Str := ['\x60', '\x60', '\x60']

/-- After the group `(\{.*?\})`, the pattern requires `\s*` and then a
closing fence. -/
def wsFence (s : Str) : Bool := fence.isPrefixOf (s.dropWhile reWs)

/-- Lazy scan for the closing brace of the group `(\{.*?\})`: the first
closing brace followed by whitespace and a fence ends the group. -/
def lazyClose (acc : Str) : Str → Option Str
  | [] => none
  | c :: rest =>
      if c = '\x7d' ∧ wsFence rest then some ('\x7b' :: (acc.reverse ++ ['\x7d']))
      else lazyClose (c :: acc) rest

/-- Match `(?:json)?\s*(\{.*?\})\s*` followed by a fence, starting just
after an opening fence; the optional `json` branch is tried first. -/
def tryFenceBody (s : Str) : Option Str :=
  let afterWs (t : Str) : Option Str :=
    match t.dropWhile reWs with
    | '\x7b' :: rest => lazyClose [] rest
    | _ => none
  match (if "json".data.isPrefixOf s then afterWs (s.drop 4) else none) with
  | some g => some g
  | none => afterWs s

/-- Model of `re.search(r'```(?:json)?\s*(\{.*?\})\s*```', content,
re.DOTALL)`, returning group 1 of the leftmost match. -/
def searchCodeBlock : Str → Option Str
  | [] => none
  | c :: rest =>
      match (if fence.isPrefixOf (c :: rest) then tryFenceBody ((c :: rest).drop 3)
             else none) with
      | some g => some g
      | none => searchCodeBlock rest

/-- The message of the `AIServiceError` raised when all parse stages
fail: it embeds the first 200 characters of the raw content. -/
def invalidJsonMsg (content : Str) : Str :=
  "Invalid JSON response from AI: ".data ++ content.take 200 ++ "...".data

/-- `OpenRouterClient._parse_json_response`: direct parse, then the
greedy brace span, then the fenced code block, then an `AIServiceError`. -/
def parse_json_response (content : Str) : Except Str Json :=
  match json_loads content with
  | some j => .ok j
  | none =>
    match (braceSpan content).bind json_loads with
    | some j => .ok j
    | none =>
      match (searchCodeBlock content).bind json_loads with
      | some j => .ok j
      | none => .error (invalidJsonMsg content)

/-! ### `OpenRouterClient.analyze_feedback`: model fallback -/

/-- Result of `_analyze_sentiment` (validated fields). -/
structure SentimentR where
  sentiment : Str
  confidence : ℚ

/-- Result of `_categorize_feedback` (validated fields). -/
structure CategoryR where
  category : Str
  confidence : ℚ

/-- The combined dictionary returned by `analyze_feedback`. -/
structure AnalyzeOut where
  sentiment : Str
  sentiment_confidence : ℚ
  category : Str
  category_confidence : ℚ
  model_used : Str

/-- The hard-coded fallback list of `analyze_feedback` (the primary
model is commented out in the source). -/
def modelsList : List Str := ["qwen/qwen3-235b-a22b-07-25:free".data]

/-- The `for model in models` loop of `analyze_feedback`.  `call m`
models running the sentiment/category pair against model `m`; an
`Except.error` models any exception from the pair.  `full` is the whole
list, consulted by the `model == models[-1]` check; a run off the end of
the list models Python's implicit `return None`. -/
def analyzeLoop (call : Str → Except Str (SentimentR × CategoryR))
    (full : List Str) : List Str → Except Str (Option AnalyzeOut)
  | [] => .ok none
  | m :: rest =>
    match call m with
    | .ok (sr, cr) =>
        .ok (some ⟨sr.sentiment, sr.confidence, cr.category, cr.confidence, m⟩)
    | .error e =>
        if m = full.getLastD [] then
          .error ("All models failed. Last error: ".data ++ e)
        else analyzeLoop call full rest

/-- `OpenRouterClient.analyze_feedback`, as a function of the behaviour
of the per-model call pair. -/
def analyze_feedback (call : Str → Except Str (SentimentR × CategoryR)) :
    Except Str (Option AnalyzeOut) :=
  analyzeLoop call modelsList modelsList

/-! ## Persistence model

The async session of SQLAlchemy is modelled as a record of committed
rows and rows added but not yet committed.  `commit` publishes the
pending rows, `rollback` discards them. -/

/-- A persisted `FeedbackEntry` row (the columns the handlers write). -/
structure FeedbackRow where
  text : Str
  sentiment : Str
  sentiment_confidence : ℚ
  category : Str
  category_confidence : ℚ
  tags : List Str
  analysis_duration_ms : Int
  model_used : Str

/-- Database session state. -/
structure DbState where
  committed : List FeedbackRow
  pending : List FeedbackRow

/-- `db.add(...)`. -/
def dbAdd (db : DbState) (r : FeedbackRow) : DbState :=
  ⟨db.committed, db.pending ++ [r]⟩

/-- `db.commit()` when it succeeds. -/
def dbCommit (db : DbState) : DbState :=
  ⟨db.committed ++ db.pending, []⟩

/-- `db.rollback()`. -/
def dbRollback (db : DbState) : DbState :=
  ⟨db.committed, []⟩

/-- Exceptions that can surface inside the classify-then-persist `try`
block: an `AIServiceError` with its message, or any other exception. -/
inductive AIFail where
  | ai (msg : Str)
  | other

/-- Whether `db.commit()` itself raises. -/
inductive CommitOutcome where
  | ok
  | fail

/-! ## `app/routers/feedback.py`: `POST /api/feedback/analyze` -/

/-- Outcome of the route: a 200 with the stored row, a 422 from schema
validation (raised before the handler runs), a 503 carrying the
`AIServiceError` message, or a generic 500. -/
inductive RouterResult where
  | ok (row : FeedbackRow)
  | validationErr
  | e503 (detail : Str)
  | e500

/-- `true` on every non-200 outcome. -/
def RouterResult.isErr : RouterResult → Bool
  | .ok _ => false
  | _ => true

/-- The `analyze_feedback` route handler together with the schema
validation FastAPI performs on the request body.  `ai` models the
outcome of `ai_client.analyze_feedback`, `duration` the measured
wall-clock milliseconds, `co` whether `db.commit()` succeeds. -/
def router_analyze_feedback (rawText : Str) (tags : List Str)
    (ai : Except AIFail AnalyzeOut) (duration : Int) (co : CommitOutcome)
    (db : DbState) : DbState × RouterResult :=
  match feedbackCreateText rawText with
  | .error _ => (db, .validationErr)
  | .ok text =>
    match ai with
    | .error (.ai m) => (dbRollback db, .e503 m)
    | .error .other => (dbRollback db, .e500)
    | .ok a =>
      let row : FeedbackRow :=
        ⟨text, a.sentiment, a.sentiment_confidence, a.category,
         a.category_confidence, tags, duration, a.model_used⟩
      let db1 := dbAdd db row
      match co with
      | .ok => (dbCommit db1, .ok row)
      | .fail => (dbRollback db1, .e500)

/-! ## `app/services/feedback_service.py`: `analyze_and_save_feedback` -/

/-- Outcome of the service call: a returned response row, a re-raised
`AIServiceError`, or a re-raised unexpected exception. -/
inductive ServiceResult where
  | ok (row : FeedbackRow)
  | raisedAI (msg : Str)
  | raisedOther

/-- `true` whenever the service raises. -/
def ServiceResult.isErr : ServiceResult → Bool
  | .ok _ => false
  | _ => true

/-- `FeedbackService.analyze_and_save_feedback` (the `feedback_data`
argument is an already-validated `FeedbackCreate`). -/
def service_analyze_and_save (text : Str) (tags : List Str)
    (ai : Except AIFail AnalyzeOut) (duration : Int) (co : CommitOutcome)
    (db : DbState) : DbState × ServiceResult :=
  match ai with
  | .error (.ai m) => (dbRollback db, .raisedAI m)
  | .error .other => (dbRollback db, .raisedOther)
  | .ok a =>
    let row : FeedbackRow :=
      ⟨text, a.sentiment, a.sentiment_confidence, a.category,
       a.category_confidence, tags, duration, a.model_used⟩
    let db1 := dbAdd db row
    match co with
    | .ok => (dbCommit db1, .ok row)
    | .fail => (dbRollback db1, .raisedOther)

/-! ## `app/routers/feedback.py`: `GET /api/feedback/` filters -/

/-- The columns of a stored entry consulted by the list filters. -/
structure FEntry where
  sentiment : Str
  category : Str
  text : Str
  tags : List Str
deriving DecidableEq

/-- SQL `LIKE '%needle%'` / `ilike`: case-insensitive containment. -/
def likeCI (hay needle : Str) : Bool :=
  strContains (pyLower hay) (pyLower needle)

/-- JSON string escaping used when the tags list is serialised into the
JSON column (backslashes and quotes escaped). -/
def jsonEscape (s : Str) : Str :=
  s.foldr (fun c acc => if c = '"' ∨ c = '\\' then '\\' :: c :: acc else c :: acc) []

/-- `func.json_extract(tags, '$')`: the serialised JSON array of tags. -/
def tagsJson (tags : List Str) : Str :=
  '[' :: (List.intercalate ",".data
    (tags.map (fun t => '"' :: (jsonEscape t ++ ['"'])))) ++ [']']

/-- The filter contributed by the `sentiment` query parameter:
`if sentiment:` then `validate_sentiment`, and an exact-match filter
only when validation returns a value. -/
def sentimentFilters (s : Option Str) : List (FEntry → Bool) :=
  match s with
  | none => []
  | some sv =>
      if sv = [] then []
      else
        match validate_sentiment (some sv) with
        | some v => [fun e => e.sentiment == v]
        | none => []

/-- The filter contributed by the `category` query parameter. -/
def categoryFilters (c : Option Str) : List (FEntry → Bool) :=
  match c with
  | none => []
  | some cv => if cv = [] then [] else [fun e => likeCI e.category cv]

/-- The filter contributed by the `search` query parameter. -/
def searchTextFilters (q : Option Str) : List (FEntry → Bool) :=
  match q with
  | none => []
  | some qv => if qv = [] then [] else [fun e => likeCI e.text qv]

/-- The filter contributed by the `tag` query parameter: the quoted tag
must appear inside the serialised tags array (SQL `LIKE`). -/
def tagFilters (t : Option Str) : List (FEntry → Bool) :=
  match t with
  | none => []
  | some tv =>
      if tv = [] then []
      else [fun e => likeCI (tagsJson e.tags) ('"' :: (tv ++ ['"']))]

/-- The `filters` list built by `get_feedback_list`. -/
def buildFilters (s c q t : Option Str) : List (FEntry → Bool) :=
  sentimentFilters s ++ categoryFilters c ++ searchTextFilters q ++ tagFilters t

/-- The row set produced by the query of `get_feedback_list` before
ordering and pagination: `query.where(or_(*filters))` when any filter
was supplied, the whole table otherwise. -/
def get_feedback_list_rows (db : List FEntry) (s c q t : Option Str) :
    List FEntry :=
  let filters := buildFilters s c q t
  if filters.isEmpty then db
  else db.filter (fun e => filters.any (fun f => f e))

/-- Spec-side predicate: the entry satisfies a supplied, valid
sentiment filter. -/
def sentMatch (s : Option Str) (e : FEntry) : Prop :=
  ∃ v, validate_sentiment s = some v ∧ e.sentiment = v

/-- Spec-side predicate: the entry satisfies a supplied category
filter. -/
def catMatch (c : Option Str) (e : FEntry) : Prop :=
  ∃ cv, c = some cv ∧ cv ≠ [] ∧ likeCI e.category cv = true

/-- Spec-side predicate: the entry satisfies a supplied text-search
filter. -/
def searchMatch (q : Option Str) (e : FEntry) : Prop :=
  ∃ qv, q = some qv ∧ qv ≠ [] ∧ likeCI e.text qv = true

/-- Spec-side predicate: the entry satisfies a supplied tag filter. -/
def tagMatch (t : Option Str) (e : FEntry) : Prop :=
  ∃ tv, t = some tv ∧ tv ≠ [] ∧
    likeCI (tagsJson e.tags) ('"' :: (tv ++ ['"'])) = true

/-! ## Analytics: `app/services/analytics_service.py` and
`app/routers/analytics.py`

Timestamps are seconds since the Unix epoch (`Nat`; the model covers
times at or after the epoch, which is where the application lives).
`func.date` truncates to the calendar day and SQLite renders it as
`YYYY-MM-DD`; we reproduce that with the standard civil-from-days
conversion.  Both files issue textually identical SQL, so a single
model of each query serves both sides; the Python post-processing is
embedded separately for each file. -/

/-- Seconds per day. -/
def secPerDay : Nat := 86400

/-- Civil date `(year, month, day)` of a day number counted from
1970-01-01 (valid for any day at or after the epoch). -/
def civilFromDays (z : Nat) : Nat × Nat × Nat :=
  let z' := z + 719468
  let era := z' / 146097
  let doe := z' % 146097
  let yoe := (doe - doe / 1460 + doe / 36524 - doe / 146096) / 365
  let y := yoe + era * 400
  let doy := doe - (365 * yoe + yoe / 4 - yoe / 100)
  let mp := (5 * doy + 2) / 153
  let d := doy - (153 * mp + 2) / 5 + 1
  let m := if mp < 10 then mp + 3 else mp - 9
  (if m ≤ 2 then y + 1 else y, m, d)

/-- Zero-pad a numeral to two digits. -/
def pad2 (n : Nat) : Str :=
  if n < 10 then '0' :: (Nat.repr n).data else (Nat.repr n).data

/-- Zero-pad a numeral to four digits. -/
def pad4 (n : Nat) : Str :=
  let s := (Nat.repr n).data
  List.replicate (4 - s.length) '0' ++ s

/-- `strftime('%Y-%m-%d')` of a day number. -/
def dateStr (day : Nat) : Str :=
  let ymd := civilFromDays day
  pad4 ymd.1 ++ '-' :: (pad2 ymd.2.1 ++ '-' :: pad2 ymd.2.2)

/-- The rows of the daily-count query shared by
`get_recent_activity` and the `/api/stats` router: entries with
`created_at >= now - days` grouped by calendar day, ordered by day. -/
def sqlDailyRows (now days : Nat) (es : List Nat) : List (Str × Nat) :=
  let win := es.filter (fun t => now - days * secPerDay ≤ t)
  let ds := (win.map (fun t => t / secPerDay)).dedup
  let sorted := List.insertionSort (· ≤ ·) ds
  sorted.map (fun d => (dateStr d, win.countP (fun t => t / secPerDay == d)))

/-- One backfill step of the `for i in range(days)` loop: insert the
key for `utcnow() - timedelta(days=i)` with count 0 if absent. -/
def backfillStep (now : Nat) (act : List (Str × Nat)) (i : Nat) :
    List (Str × Nat) :=
  if act.any (fun p => p.1 == dateStr ((now - i * secPerDay) / secPerDay))
  then act
  else act ++ [(dateStr ((now - i * secPerDay) / secPerDay), 0)]

/-- `AnalyticsService.get_recent_activity(days)`: daily counts within
the window, backfilled with zeros for the `days` most recent days. -/
def get_recent_activity (now days : Nat) (es : List Nat) : List (Str × Nat) :=
  let activity := sqlDailyRows now days es
  (List.range days).foldl (backfillStep now) activity

/-- The recent-activity block inlined in the `/api/stats` router
(`days` fixed to 7). -/
def routerRecentActivity (now : Nat) (es : List Nat) : List (Str × Nat) :=
  let recent := sqlDailyRows now 7 es
  (List.range 7).foldl (backfillStep now) recent

/-! ### Aggregates over stored entries -/

/-- A stored entry as the analytics queries see it. -/
structure SEntry where
  sentiment : Str
  sentiment_confidence : ℚ
  category : Str
  category_confidence : ℚ
  created_at : Nat
deriving DecidableEq

/-- Floor of a rational, computed from the numerator and denominator. -/
def ratFloor (q : ℚ) : ℤ := Int.fdiv q.num q.den

/-- Banker's rounding to an integer, the tie rule of Python `round`. -/
def roundHalfEven (q : ℚ) : ℤ :=
  if q - (ratFloor q : ℚ) < 1 / 2 then ratFloor q
  else if 1 / 2 < q - (ratFloor q : ℚ) then ratFloor q + 1
  else if Even (ratFloor q) then ratFloor q else ratFloor q + 1

/-- Model of Python `round(q, 2)`. -/
def round2 (q : ℚ) : ℚ := (roundHalfEven (q * 100) : ℚ) / 100

/-- Arithmetic mean of a list of rationals (callers only use it on
nonempty lists). -/
def avgQ (l : List ℚ) : ℚ := l.sum / (l.length : ℚ)

/-- `SELECT count(*) FROM feedback_entries`. -/
def sqlTotalCount (db : List SEntry) : Nat := db.length

/-- `GROUP BY sentiment` with per-group counts. -/
def sqlSentimentRows (db : List SEntry) : List (Str × Nat) :=
  ((db.map (fun e => e.sentiment)).dedup).map
    (fun s => (s, db.countP (fun e => e.sentiment == s)))

/-- `GROUP BY category` with count and average category confidence,
ordered by descending count, limited to `lim` rows. -/
def sqlCategoryRows (db : List SEntry) (lim : Nat) : List (Str × Nat × ℚ) :=
  let cats := (db.map (fun e => e.category)).dedup
  let rows := cats.map (fun c =>
    (c, db.countP (fun e => e.category == c),
     avgQ ((db.filter (fun e => e.category == c)).map
       (fun e => e.category_confidence))))
  (List.insertionSort (fun a b : Str × Nat × ℚ => b.2.1 ≤ a.2.1) rows).take lim

/-- `avg(case when sentiment = s then sentiment_confidence end)`:
`none` models SQL `NULL` (no matching rows). -/
def sqlAvgSentimentConf (db : List SEntry) (s : Str) : Option ℚ :=
  let vals := (db.filter (fun e => e.sentiment == s)).map
    (fun e => e.sentiment_confidence)
  if vals.isEmpty then none else some (avgQ vals)

/-- `avg(category_confidence)` over the whole table. -/
def sqlAvgCategoryConf (db : List SEntry) : Option ℚ :=
  if db.isEmpty then none
  else some (avgQ (db.map (fun e => e.category_confidence)))

/-- Python dict assignment `d[k] = v` on an insertion-ordered dict. -/
def dictSet (d : List (Str × Nat)) (k : Str) (v : Nat) : List (Str × Nat) :=
  if d.any (fun p => p.1 == k) then
    d.map (fun p => if p.1 == k then (p.1, v) else p)
  else d ++ [(k, v)]

/-- The zero-seeded sentiment dictionary. -/
def seedDistribution : List (Str × Nat) :=
  [("positive".data, 0), ("neutral".data, 0), ("negative".data, 0)]

/-- The router's sentiment-distribution block: unconditional dict
assignment for every row. -/
def routerSentimentDistribution (db : List SEntry) : List (Str × Nat) :=
  (sqlSentimentRows db).foldl (fun d p => dictSet d p.1 p.2) seedDistribution

/-- `AnalyticsService.get_sentiment_distribution`: assignment guarded
by `if row.sentiment in distribution`. -/
def serviceSentimentDistribution (db : List SEntry) : List (Str × Nat) :=
  (sqlSentimentRows db).foldl
    (fun d p => if d.any (fun q => q.1 == p.1) then dictSet d p.1 p.2 else d)
    seedDistribution

/-- One reported top-category row. -/
structure CatRow where
  category : Str
  count : Nat
  avg_confidence : ℚ
deriving DecidableEq

/-- `round(avg, 2) if avg else 0`: Python's falsy test on the nullable
SQL average. -/
def roundedOrZero (q : ℚ) : ℚ := if q = 0 then 0 else round2 q

/-- The router's top-categories block (limit 10). -/
def routerTopCategories (db : List SEntry) : List CatRow :=
  (sqlCategoryRows db 10).map (fun r => ⟨r.1, r.2.1, roundedOrZero r.2.2⟩)

/-- `AnalyticsService.get_top_categories(limit)`. -/
def serviceTopCategories (db : List SEntry) (lim : Nat) : List CatRow :=
  (sqlCategoryRows db lim).map (fun r => ⟨r.1, r.2.1, roundedOrZero r.2.2⟩)

/-- The router's `round(x, 2) if x else 0` on a nullable average. -/
def routerAvgField (x : Option ℚ) : ℚ :=
  match x with
  | some q => if q = 0 then 0 else round2 q
  | none => 0

/-- The service's `round(x or 0, 2)` on a nullable average. -/
def serviceAvgField (x : Option ℚ) : ℚ :=
  round2 (match x with
    | some q => if q = 0 then 0 else q
    | none => 0)

/-- The four average-confidence figures, as the router computes them. -/
def routerAverageConfidence (db : List SEntry) : List (Str × ℚ) :=
  [("sentiment_positive".data, routerAvgField (sqlAvgSentimentConf db "positive".data)),
   ("sentiment_neutral".data, routerAvgField (sqlAvgSentimentConf db "neutral".data)),
   ("sentiment_negative".data, routerAvgField (sqlAvgSentimentConf db "negative".data)),
   ("category".data, routerAvgField (sqlAvgCategoryConf db))]

/-- `AnalyticsService.get_average_confidence_scores`. -/
def serviceAverageConfidence (db : List SEntry) : List (Str × ℚ) :=
  [("sentiment_positive".data, serviceAvgField (sqlAvgSentimentConf db "positive".data)),
   ("sentiment_neutral".data, serviceAvgField (sqlAvgSentimentConf db "neutral".data)),
   ("sentiment_negative".data, serviceAvgField (sqlAvgSentimentConf db "negative".data)),
   ("category".data, serviceAvgField (sqlAvgCategoryConf db))]

/-- The `StatsResponse` payload. -/
structure StatsOut where
  total_feedback : Nat
  sentiment_distribution : List (Str × Nat)
  top_categories : List CatRow
  recent_activity : List (Str × Nat)
  average_confidence : List (Str × ℚ)

/-- `GET /api/stats`: the aggregation inlined in the router. -/
def router_get_statistics (now : Nat) (db : List SEntry) : StatsOut :=
  ⟨sqlTotalCount db,
   routerSentimentDistribution db,
   routerTopCategories db,
   routerRecentActivity now (db.map (fun e => e.created_at)),
   routerAverageConfidence db⟩

/-- The same payload assembled from the four `AnalyticsService`
operations at their default arguments. -/
def service_get_statistics (now : Nat) (db : List SEntry) : StatsOut :=
  ⟨sqlTotalCount db,
   serviceSentimentDistribution db,
   serviceTopCategories db 10,
   get_recent_activity now 7 (db.map (fun e => e.created_at)),
   serviceAverageConfidence db⟩

/-! ## Helper lemmas -/

theorem dropWhile_eq_self_of_front (p : Char → Bool) {l₁ l₂ : Str}
    (h : l₁ <+: l₂) (h₂ : List.dropWhile p l₂ = l₂) :
    List.dropWhile p l₁ = l₁ := by
  cases l₁ with
  | nil => rfl
  | cons a t =>
    obtain ⟨r, hr⟩ := h
    subst hr
    cases hpa : p a with
    | false => simp [List.dropWhile_cons, hpa]
    | true =>
      exfalso
      rw [List.cons_append, List.dropWhile_cons] at h₂
      simp only [hpa, if_true] at h₂
      have hle : (List.dropWhile p (t ++ r)).length ≤ (t ++ r).length :=
        (List.dropWhile_sublist p).length_le
      rw [h₂] at hle
      simp at hle

theorem pyStrip_idem (s : Str) : pyStrip (pyStrip s) = pyStrip s := by
  unfold pyStrip
  rw [dropWhile_eq_self_of_front pyWs
        ( List.rdropWhile_prefix pyWs (List.dropWhile pyWs s))
        (List.dropWhile_idempotent pyWs s)]
  exact List.rdropWhile_idempotent pyWs (List.dropWhile pyWs s)

theorem pyStrip_length_le (s : Str) : (pyStrip s).length ≤ s.length := by
  unfold pyStrip
  calc (List.rdropWhile pyWs (List.dropWhile pyWs s)).length
      ≤ (List.dropWhile pyWs s).length :=
        (( List.rdropWhile_prefix pyWs (List.dropWhile pyWs s)).sublist).length_le
    _ ≤ s.length := (List.dropWhile_sublist pyWs).length_le

theorem strContains_of_isPrefixOf {hay needle : Str}
    (h : needle.isPrefixOf hay = true) : strContains hay needle = true := by
  unfold strContains
  rw [List.any_eq_true]
  refine ⟨0, ?_, ?_⟩
  · simp
  · simpa using h

/-! ## Claim C3 -/

/-- C3: pagination clamping returns `page` unchanged when `page ≥ 1`
and 1 otherwise; it returns `page_size` unchanged when
`1 ≤ page_size ≤ 100`, 20 when `page_size < 1`, and 100 when
`page_size > 100`; in particular `page=0` behaves as `page=1`,
`page_size=0` as `page_size=20`, and `page_size=500` as
`page_size=100`. -/
theorem validate_pagination_spec (page pageSize : Int) :
    ((1 ≤ page → (validate_pagination page pageSize).1 = page) ∧
     (page < 1 → (validate_pagination page pageSize).1 = 1) ∧
     (1 ≤ pageSize → pageSize ≤ 100 → (validate_pagination page pageSize).2 = pageSize) ∧
     (pageSize < 1 → (validate_pagination page pageSize).2 = 20) ∧
     (100 < pageSize → (validate_pagination page pageSize).2 = 100)) ∧
    (validate_pagination 0 pageSize = validate_pagination 1 pageSize ∧
     validate_pagination page 0 = validate_pagination page 20 ∧
     validate_pagination page 500 = validate_pagination page 100) := by
  refine ⟨⟨?_, ?_, ?_, ?_, ?_⟩, ?_, ?_, ?_⟩ <;>
    intros <;> simp only [validate_pagination, Prod.mk.injEq] <;>
    split_ifs <;> first | rfl | omega | trivial

/-- Witness for C3 at concrete inputs. -/
theorem validate_pagination_spec_witness :
    (validate_pagination 3 50).1 = 3 ∧ (validate_pagination 3 50).2 = 50 ∧
    (validate_pagination 0 7).1 = 1 ∧ (validate_pagination 5 500).2 = 100 ∧
    (validate_pagination 5 0).2 = 20 :=
  ⟨(validate_pagination_spec 3 50).1.1 (by norm_num),
   (validate_pagination_spec 3 50).1.2.2.1 (by norm_num) (by norm_num),
   (validate_pagination_spec 0 7).1.2.1 (by norm_num),
   (validate_pagination_spec 5 500).1.2.2.2.2 (by norm_num),
   (validate_pagination_spec 5 0).1.2.2.2.1 (by norm_num)⟩

/-! ## Claims C2 and C10: `validate_tags` -/

theorem cleanTag_props {l : List PyObj} {t : Str}
    (h : t ∈ l.filterMap cleanTag) :
    pyStrip t = t ∧ t ≠ [] ∧ t.length ≤ 50 ∧
      ∃ raw, PyObj.str raw ∈ l ∧ t = pyStrip raw := by
  rw [List.mem_filterMap] at h
  obtain ⟨a, ha, hct⟩ := h
  cases a with
  | nonStr => simp [cleanTag] at hct
  | str raw =>
    simp only [cleanTag] at hct
    split_ifs at hct with hcond
    · obtain ⟨h1, h2⟩ := hcond
      obtain rfl : pyStrip raw = t := by simpa using hct
      exact ⟨pyStrip_idem raw, h1, h2, raw, ha, rfl⟩

theorem cleanTag_of_clean {t : Str} (h1 : pyStrip t = t) (h2 : t ≠ [])
    (h3 : t.length ≤ 50) : cleanTag (PyObj.str t) = some t := by
  simp only [cleanTag, h1]
  rw [if_pos ⟨h2, h3⟩]

theorem dedupTags_sublist (seen : List Str) (l : List Str) :
    List.Sublist (dedupTags seen l) l := by
  induction l generalizing seen with
  | nil => simp [dedupTags]
  | cons t rest ih =>
    unfold dedupTags
    split_ifs
    · exact (ih seen).trans (List.sublist_cons_self t rest)
    · exact (ih (pyLower t :: seen)).cons₂ t

theorem mem_dedupTags_lower_notin {seen : List Str} {l : List Str} {x : Str}
    (h : x ∈ dedupTags seen l) : pyLower x ∉ seen := by
  induction l generalizing seen with
  | nil => simp [dedupTags] at h
  | cons t rest ih =>
    unfold dedupTags at h
    split_ifs at h with hmem
    · exact ih h
    · rcases List.mem_cons.1 h with rfl | hx
      · exact hmem
      · have := ih hx
        intro hc
        exact this (List.mem_cons_of_mem _ hc)

theorem dedupTags_pairwise (seen : List Str) (l : List Str) :
    (dedupTags seen l).Pairwise (fun a b => pyLower a ≠ pyLower b) := by
  induction l generalizing seen with
  | nil => simp [dedupTags]
  | cons t rest ih =>
    unfold dedupTags
    split_ifs
    · exact ih seen
    · refine List.Pairwise.cons ?_ (ih (pyLower t :: seen))
      intro b hb hc
      exact (mem_dedupTags_lower_notin hb) (by rw [← hc]; exact List.mem_cons_self _ _)

theorem dedupTags_eq_self {seen : List Str} {l : List Str}
    (hseen : ∀ x ∈ l, pyLower x ∉ seen)
    (hpw : l.Pairwise (fun a b => pyLower a ≠ pyLower b)) :
    dedupTags seen l = l := by
  induction l generalizing seen with
  | nil => rfl
  | cons t rest ih =>
    unfold dedupTags
    rw [if_neg (hseen t (List.mem_cons_self t rest))]
    congr 1
    refine ih ?_ (List.Pairwise.of_cons hpw)
    intro x hx
    rw [List.mem_cons]
    rintro (hc | hc)
    · exact (List.rel_of_pairwise_cons hpw hx) hc.symm
    · exact hseen x (List.mem_cons_of_mem _ hx) hc

theorem validate_tags_mem_props {ts : List PyObj} {t : Str}
    (h : t ∈ validate_tags (some ts)) :
    pyStrip t = t ∧ t ≠ [] ∧ t.length ≤ 50 ∧
      ∃ raw, PyObj.str raw ∈ ts ∧ t = pyStrip raw := by
  simp only [validate_tags] at h
  split_ifs at h with hnil
  · simp at h
  · have h1 : t ∈ dedupTags [] (ts.filterMap cleanTag) := List.mem_of_mem_take h
    have h2 : t ∈ ts.filterMap cleanTag :=
      (dedupTags_sublist [] (ts.filterMap cleanTag)).mem h1
    exact cleanTag_props h2

theorem validate_tags_pairwise (ts : List PyObj) :
    (validate_tags (some ts)).Pairwise (fun a b => pyLower a ≠ pyLower b) := by
  simp only [validate_tags]
  split_ifs
  · simp
  · exact (dedupTags_pairwise [] _).sublist (List.take_sublist 10 _)

theorem validate_tags_length_le (x : Option (List PyObj)) :
    (validate_tags x).length ≤ 10 := by
  cases x with
  | none => simp [validate_tags]
  | some ts =>
    simp only [validate_tags]
    split_ifs
    · simp
    · simp

theorem validate_tags_sublist (ts : List PyObj) :
    List.Sublist (validate_tags (some ts)) (ts.filterMap cleanTag) := by
  simp only [validate_tags]
  split_ifs with hnil
  · subst hnil; simp
  · exact (List.take_sublist 10 _).trans (dedupTags_sublist [] _)

/-- C2: `validate_tags` drops non-string and empty entries, trims each
tag, drops tags longer than 50 characters, de-duplicates
case-insensitively while preserving first-seen order (the output is a
sublist of the cleaned tag list), and truncates to at most 10 tags; in
particular `validate_tags(["a", "A", "b", "b"]) = ["a", "b"]`. -/
theorem validate_tags_spec (ts : List PyObj) :
    validate_tags (some [PyObj.str "a".data, PyObj.str "A".data,
      PyObj.str "b".data, PyObj.str "b".data]) = ["a".data, "b".data] ∧
    (validate_tags (some ts)).length ≤ 10 ∧
    (∀ t ∈ validate_tags (some ts),
      pyStrip t = t ∧ t ≠ [] ∧ t.length ≤ 50 ∧
        ∃ raw, PyObj.str raw ∈ ts ∧ t = pyStrip raw) ∧
    (validate_tags (some ts)).Pairwise (fun a b => pyLower a ≠ pyLower b) ∧
    List.Sublist (validate_tags (some ts)) (ts.filterMap cleanTag) :=
  ⟨by decide, validate_tags_length_le (some ts),
   fun _ ht => validate_tags_mem_props ht,
   validate_tags_pairwise ts, validate_tags_sublist ts⟩

/-- Witness for C2 at a concrete input. -/
theorem validate_tags_spec_witness :
    pyStrip "x".data = "x".data ∧ "x".data ≠ [] ∧ ("x".data).length ≤ 50 ∧
      ∃ raw, PyObj.str raw ∈ [PyObj.str " x ".data] ∧ "x".data = pyStrip raw :=
  (validate_tags_spec [PyObj.str " x ".data]).2.2.1 "x".data (by decide)

theorem filterMap_cleanTag_map_str {l : List Str}
    (h : ∀ t ∈ l, pyStrip t = t ∧ t ≠ [] ∧ t.length ≤ 50) :
    (l.map PyObj.str).filterMap cleanTag = l := by
  induction l with
  | nil => rfl
  | cons t rest ih =>
    simp only [List.map_cons, List.filterMap_cons]
    obtain ⟨h1, h2, h3⟩ := h t (List.mem_cons_self t rest)
    rw [cleanTag_of_clean h1 h2 h3]
    rw [ih (fun x hx => h x (List.mem_cons_of_mem _ hx))]

/-- C10: `validate_tags` is idempotent — feeding its output back in (as
a list of Python strings) returns the same list, because each returned
tag is already trimmed, non-empty, at most 50 characters, pairwise
case-insensitively distinct, and the list has at most 10 entries. -/
theorem validate_tags_idempotent (x : Option (List PyObj)) :
    validate_tags (some ((validate_tags x).map PyObj.str)) = validate_tags x := by
  cases x with
  | none => rfl
  | some ts =>
    by_cases hout : validate_tags (some ts) = []
    · rw [hout]; rfl
    · have hmem : ∀ t ∈ validate_tags (some ts),
          pyStrip t = t ∧ t ≠ [] ∧ t.length ≤ 50 ∧
            ∃ raw, PyObj.str raw ∈ ts ∧ t = pyStrip raw :=
        fun _ ht => validate_tags_mem_props ht
      conv_lhs => rw [validate_tags]
      rw [if_neg (by simpa using hout)]
      rw [filterMap_cleanTag_map_str
            (fun t ht => ⟨(hmem t ht).1, (hmem t ht).2.1, (hmem t ht).2.2.1⟩)]
      rw [dedupTags_eq_self (by simp) (validate_tags_pairwise ts)]
      exact List.take_of_length_le (validate_tags_length_le (some ts))

/-! ## Claim C1: `FeedbackCreate` text validation -/

theorem dropWhile_replicate_of_neg {p : Char → Bool} {a : Char}
    (h : p a = false) (n : Nat) :
    List.dropWhile p (List.replicate n a) = List.replicate n a := by
  cases n with
  | zero => rfl
  | succ m => simp [List.replicate_succ, List.dropWhile_cons, h]

theorem pyStrip_space_replicate :
    pyStrip (' ' :: List.replicate 5000 'a') = List.replicate 5000 'a' := by
  unfold pyStrip
  rw [List.dropWhile_cons, if_pos (by decide),
      dropWhile_replicate_of_neg (by decide)]
  unfold List.rdropWhile
  rw [List.reverse_replicate, dropWhile_replicate_of_neg (by decide),
      List.reverse_replicate]

/-- C1 counterexample: the text `' ' ++ 'a' * 5000` has trimmed length
5000 (within 1–5000), yet `FeedbackCreate` validation rejects it,
because the `max_length=5000` constraint is checked against the raw,
untrimmed string (length 5001) before the stripping validator runs. -/
theorem feedbackCreateText_trimmed_in_range_rejected :
    (pyStrip (' ' :: List.replicate 5000 'a')).length = 5000 ∧
    (feedbackCreateText (' ' :: List.replicate 5000 'a')).isOk = false := by
  constructor
  · rw [pyStrip_space_replicate, List.length_replicate]
  · simp only [feedbackCreateText, List.length_cons, List.length_replicate]
    norm_num
    rfl

/-- C1 (amended): `FeedbackCreate` accepts exactly the texts whose raw
length is between 1 and 5000 and whose trimmed form is nonempty,
returning the trimmed text; it rejects (with a 422, before the handler
and hence before any persistence) every text that is empty or
whitespace-only after trimming and every text whose raw length — in
particular, whose trimmed length — exceeds 5000 characters. -/
theorem feedbackCreateText_spec (v : Str) :
    (1 ≤ v.length → v.length ≤ 5000 → pyStrip v ≠ [] →
      feedbackCreateText v = .ok (pyStrip v)) ∧
    (pyStrip v = [] → (feedbackCreateText v).isOk = false) ∧
    (5000 < (pyStrip v).length → (feedbackCreateText v).isOk = false) ∧
    (∀ tags ai dur co db, (feedbackCreateText v).isOk = false →
      router_analyze_feedback v tags ai dur co db = (db, .validationErr)) := by
  refine ⟨?_, ?_, ?_, ?_⟩
  · intro h1 h2 h3
    simp only [feedbackCreateText]
    rw [if_neg (by omega), if_neg (by omega), if_neg h3]
  · intro h
    simp only [feedbackCreateText, h]
    split_ifs <;> rfl
  · intro h
    have hle := pyStrip_length_le v
    simp only [feedbackCreateText]
    rw [if_neg (by omega), if_pos (by omega)]
    rfl
  · intro tags ai dur co db h
    cases hfc : feedbackCreateText v with
    | ok t => rw [hfc] at h; simp [Except.isOk, Except.toBool] at h
    | error e => simp only [router_analyze_feedback, hfc]

/-- Witness for C1 (amended) at a concrete input. -/
theorem feedbackCreateText_spec_witness :
    feedbackCreateText " hi ".data = .ok (pyStrip " hi ".data) ∧
    (feedbackCreateText "   ".data).isOk = false ∧
    router_analyze_feedback "".data [] (.error .other) 0 .ok ⟨[], []⟩ =
      (⟨[], []⟩, .validationErr) :=
  ⟨(feedbackCreateText_spec " hi ".data).1 (by decide) (by decide) (by decide),
   (feedbackCreateText_spec "   ".data).2.1 (by decide),
   (feedbackCreateText_spec "".data).2.2.2 [] (.error .other) 0 .ok ⟨[], []⟩
     (by decide)⟩

/-! ## Claim C4: `_parse_json_response` -/

/-- C4: JSON extraction tries direct parsing, then the first greedy
`{...}` span, then the interior of a fenced code block optionally
tagged `json`, and on total failure raises an AIService error whose
message embeds the first 200 characters of the raw content; the three
example strings all parse to `{"key": "value"}` and a non-JSON string
raises an error containing "Invalid JSON response". -/
theorem parse_json_response_spec (content : Str) :
    parse_json_response "\x7b\"key\":\"value\"\x7d".data =
      .ok (Json.obj [("key".data, Json.str "value".data)]) ∧
    parse_json_response "Here is the result: \x7b\"key\":\"value\"\x7d Done.".data =
      .ok (Json.obj [("key".data, Json.str "value".data)]) ∧
    parse_json_response "\x60\x60\x60json\n\x7b\"key\":\"value\"\x7d\n\x60\x60\x60".data =
      .ok (Json.obj [("key".data, Json.str "value".data)]) ∧
    parse_json_response "no json here".data =
      .error (invalidJsonMsg "no json here".data) ∧
    strContains (invalidJsonMsg "no json here".data)
      "Invalid JSON response".data = true ∧
    invalidJsonMsg content =
      "Invalid JSON response from AI: ".data ++ content.take 200 ++ "...".data ∧
    (∀ e, parse_json_response content = .error e → e = invalidJsonMsg content) ∧
    (∀ j, json_loads content = some j → parse_json_response content = .ok j) ∧
    (json_loads content = none →
      ∀ span j, braceSpan content = some span → json_loads span = some j →
        parse_json_response content = .ok j) ∧
    (json_loads content = none → (braceSpan content).bind json_loads = none →
      ∀ g j, searchCodeBlock content = some g → json_loads g = some j →
        parse_json_response content = .ok j) ∧
    (json_loads content = none → (braceSpan content).bind json_loads = none →
      (searchCodeBlock content).bind json_loads = none →
      parse_json_response content = .error (invalidJsonMsg content)) := by
  refine ⟨by rfl, by rfl, by rfl, by rfl, by decide, rfl,
    ?_, ?_, ?_, ?_, ?_⟩
  · intro e h
    unfold parse_json_response at h
    cases h1 : json_loads content with
    | some j => rw [h1] at h; exact absurd h (by simp)
    | none =>
      rw [h1] at h
      cases h2 : (braceSpan content).bind json_loads with
      | some j => rw [h2] at h; exact absurd h (by simp)
      | none =>
        rw [h2] at h
        cases h3 : (searchCodeBlock content).bind json_loads with
        | some j => rw [h3] at h; exact absurd h (by simp)
        | none => rw [h3] at h; simpa using h.symm
  · intro j h
    unfold parse_json_response
    rw [h]
  · intro h1 span j h2 h3
    unfold parse_json_response
    rw [h1, h2]
    simp [h3]
  · intro h1 h2 g j h3 h4
    unfold parse_json_response
    rw [h1, h2, h3]
    simp [h4]
  · intro h1 h2 h3
    unfold parse_json_response
    rw [h1, h2, h3]

/-- Witness for C4 at concrete inputs. -/
theorem parse_json_response_spec_witness :
    parse_json_response "\x7b\"a\": 1\x7d".data =
      .ok (Json.obj [("a".data, Json.num "1".data)]) :=
  (parse_json_response_spec "\x7b\"a\": 1\x7d".data).2.2.2.2.2.2.2.1
    (Json.obj [("a".data, Json.num "1".data)]) (by rfl)

/-! ## Claim C5: model fallback in `analyze_feedback` -/

/-- C5: the client tries the models of the fallback list strictly in
order; a successful call pair returns immediately with that model as
`model_used` (no later model is consulted); a failing pair on a
non-last model falls through to the rest of the list; a failing pair on
the last model raises an AIService error whose message contains
"All models failed" and embeds the last underlying error.  The first
two conjuncts instantiate this at the hard-coded single-model list. -/
theorem analyze_feedback_fallback_spec
    (call : Str → Except Str (SentimentR × CategoryR)) :
    (∀ sr cr, call "qwen/qwen3-235b-a22b-07-25:free".data = .ok (sr, cr) →
      analyze_feedback call = .ok (some ⟨sr.sentiment, sr.confidence,
        cr.category, cr.confidence, "qwen/qwen3-235b-a22b-07-25:free".data⟩)) ∧
    (∀ e, call "qwen/qwen3-235b-a22b-07-25:free".data = .error e →
      analyze_feedback call =
        .error ("All models failed. Last error: ".data ++ e) ∧
      strContains ("All models failed. Last error: ".data ++ e)
        "All models failed".data = true) ∧
    (∀ full m rest sr cr, call m = .ok (sr, cr) →
      analyzeLoop call full (m :: rest) =
        .ok (some ⟨sr.sentiment, sr.confidence, cr.category, cr.confidence, m⟩)) ∧
    (∀ full m rest e, call m = .error e → m ≠ full.getLastD [] →
      analyzeLoop call full (m :: rest) = analyzeLoop call full rest) ∧
    (∀ full m rest e, call m = .error e → m = full.getLastD [] →
      analyzeLoop call full (m :: rest) =
        .error ("All models failed. Last error: ".data ++ e)) := by
  have hloop_ok : ∀ (full : List Str) m rest sr cr, call m = .ok (sr, cr) →
      analyzeLoop call full (m :: rest) =
        .ok (some ⟨sr.sentiment, sr.confidence, cr.category, cr.confidence, m⟩) := by
    intro full m rest sr cr h
    unfold analyzeLoop
    rw [h]
  have hloop_last : ∀ (full : List Str) m rest e, call m = .error e →
      m = full.getLastD [] →
      analyzeLoop call full (m :: rest) =
        .error ("All models failed. Last error: ".data ++ e) := by
    intro full m rest e h hm
    unfold analyzeLoop
    rw [h]
    dsimp only
    rw [if_pos hm]
  have hloop_next : ∀ (full : List Str) m rest e, call m = .error e →
      m ≠ full.getLastD [] →
      analyzeLoop call full (m :: rest) = analyzeLoop call full rest := by
    intro full m rest e h hm
    have heq : analyzeLoop call full (m :: rest) =
        if m = full.getLastD []
        then .error ("All models failed. Last error: ".data ++ e)
        else analyzeLoop call full rest := by
      conv_lhs => unfold analyzeLoop
      simp only [h]
    rw [heq, if_neg hm]
  refine ⟨?_, ?_, hloop_ok, hloop_next, hloop_last⟩
  · intro sr cr h
    exact hloop_ok modelsList _ [] sr cr h
  · intro e h
    refine ⟨hloop_last modelsList _ [] e h (by decide), ?_⟩
    apply strContains_of_isPrefixOf
    have : "All models failed. Last error: ".data =
        "All models failed".data ++ ". Last error: ".data := by decide
    rw [this, List.append_assoc, List.isPrefixOf_iff_prefix]
    exact List.prefix_append _ _

/-- Witness for C5 at a concrete call function. -/
theorem analyze_feedback_fallback_spec_witness :
    analyze_feedback (fun _ => .error "boom".data) =
      .error ("All models failed. Last error: ".data ++ "boom".data) ∧
    strContains ("All models failed. Last error: ".data ++ "boom".data)
      "All models failed".data = true :=
  (analyze_feedback_fallback_spec (fun _ => .error "boom".data)).2.1
    "boom".data rfl

/-! ## Claim C6: rollback before errors propagate -/

/-- C6: on both the route path and the service path, every failing
execution of classify-then-persist leaves no partial record — the final
session state has no pending rows and the committed rows are unchanged
(for the route, starting from a fresh session) — and an AIService error
surfaces as a 503 on the route / is re-raised by the service, while any
other failure surfaces as a generic 500 / is re-raised. -/
theorem analyze_rollback_spec (rawText text : Str) (tags : List Str)
    (ai : Except AIFail AnalyzeOut) (dur : Int) (co : CommitOutcome)
    (db : DbState) :
    (db.pending = [] →
      (router_analyze_feedback rawText tags ai dur co db).2.isErr = true →
      (router_analyze_feedback rawText tags ai dur co db).1.pending = [] ∧
      (router_analyze_feedback rawText tags ai dur co db).1.committed =
        db.committed) ∧
    ((service_analyze_and_save text tags ai dur co db).2.isErr = true →
      (service_analyze_and_save text tags ai dur co db).1.pending = [] ∧
      (service_analyze_and_save text tags ai dur co db).1.committed =
        db.committed) ∧
    (∀ m t, feedbackCreateText rawText = .ok t → ai = .error (.ai m) →
      (router_analyze_feedback rawText tags ai dur co db).2 = .e503 m) ∧
    (∀ t, feedbackCreateText rawText = .ok t → ai = .error .other →
      (router_analyze_feedback rawText tags ai dur co db).2 = .e500) ∧
    (∀ m, ai = .error (.ai m) →
      (service_analyze_and_save text tags ai dur co db).2 = .raisedAI m) ∧
    (ai = .error .other →
      (service_analyze_and_save text tags ai dur co db).2 = .raisedOther) := by
  refine ⟨?_, ?_, ?_, ?_, ?_, ?_⟩
  · intro hdb herr
    cases hfc : feedbackCreateText rawText with
    | error e =>
      unfold router_analyze_feedback
      rw [hfc]
      exact ⟨hdb, rfl⟩
    | ok t =>
      cases ai with
      | error f =>
        cases f <;> (unfold router_analyze_feedback; rw [hfc]; exact ⟨rfl, rfl⟩)
      | ok a =>
        cases co with
        | ok =>
          exfalso
          unfold router_analyze_feedback at herr
          rw [hfc] at herr
          simp [RouterResult.isErr] at herr
        | fail =>
          unfold router_analyze_feedback
          rw [hfc]
          exact ⟨rfl, rfl⟩
  · intro herr
    cases ai with
    | error f => cases f <;> exact ⟨rfl, rfl⟩
    | ok a =>
      cases co with
      | ok =>
        exfalso
        unfold service_analyze_and_save at herr
        simp [ServiceResult.isErr] at herr
      | fail => exact ⟨rfl, rfl⟩
  · intro m t hfc hai
    subst hai
    unfold router_analyze_feedback
    rw [hfc]
  · intro t hfc hai
    subst hai
    unfold router_analyze_feedback
    rw [hfc]
  · intro m hai
    subst hai
    rfl
  · intro hai
    subst hai
    rfl

/-- Witness for C6 at concrete inputs. -/
theorem analyze_rollback_spec_witness :
    ((router_analyze_feedback "hi".data [] (.error (.ai "down".data)) 0 .ok
        ⟨[], []⟩).1.pending = [] ∧
     (router_analyze_feedback "hi".data [] (.error (.ai "down".data)) 0 .ok
        ⟨[], []⟩).1.committed = (DbState.mk [] []).committed) ∧
    ((service_analyze_and_save "hi".data [] (.error .other) 0 .ok
        ⟨[], []⟩).2 = .raisedOther) :=
  ⟨(analyze_rollback_spec "hi".data "hi".data [] (.error (.ai "down".data)) 0
      .ok ⟨[], []⟩).1 rfl (by decide),
   (analyze_rollback_spec "hi".data "hi".data [] (.error .other) 0
      .ok ⟨[], []⟩).2.2.2.2.2 rfl⟩

/-! ## Claim C7: list filters combine with OR -/

theorem sentimentFilters_any (s : Option Str) (e : FEntry) :
    ((sentimentFilters s).any (fun f => f e) = true) ↔ sentMatch s e := by
  cases s with
  | none => simp [sentimentFilters, sentMatch, validate_sentiment]
  | some sv =>
    by_cases hnil : sv = []
    · subst hnil
      simp [sentimentFilters, sentMatch, validate_sentiment]
    · cases hv : validate_sentiment (some sv) with
      | some v =>
        simp [sentimentFilters, hnil, hv, sentMatch]
      | none =>
        simp [sentimentFilters, hnil, hv, sentMatch]

theorem categoryFilters_any (c : Option Str) (e : FEntry) :
    ((categoryFilters c).any (fun f => f e) = true) ↔ catMatch c e := by
  cases c with
  | none => simp [categoryFilters, catMatch]
  | some cv =>
    by_cases hnil : cv = []
    · subst hnil; simp [categoryFilters, catMatch]
    · simp [categoryFilters, hnil, catMatch]

theorem searchTextFilters_any (q : Option Str) (e : FEntry) :
    ((searchTextFilters q).any (fun f => f e) = true) ↔ searchMatch q e := by
  cases q with
  | none => simp [searchTextFilters, searchMatch]
  | some qv =>
    by_cases hnil : qv = []
    · subst hnil; simp [searchTextFilters, searchMatch]
    · simp [searchTextFilters, hnil, searchMatch]

theorem tagFilters_any (t : Option Str) (e : FEntry) :
    ((tagFilters t).any (fun f => f e) = true) ↔ tagMatch t e := by
  cases t with
  | none => simp [tagFilters, tagMatch]
  | some tv =>
    by_cases hnil : tv = []
    · subst hnil; simp [tagFilters, tagMatch]
    · simp [tagFilters, hnil, tagMatch]

theorem buildFilters_any (s c q t : Option Str) (e : FEntry) :
    ((buildFilters s c q t).any (fun f => f e) = true) ↔
      (sentMatch s e ∨ catMatch c e ∨ searchMatch q e ∨ tagMatch t e) := by
  unfold buildFilters
  simp only [List.any_append, Bool.or_eq_true]
  rw [sentimentFilters_any, categoryFilters_any, searchTextFilters_any,
      tagFilters_any]
  tauto

/-- C7: whenever at least one list filter is supplied (and, for
`sentiment`, valid) — in particular whenever two or more are — the row
set selected by `GET /api/feedback/` is exactly the set of entries
satisfying at least one of the supplied filter predicates: the filters
combine with logical OR, not AND; and an unrecognized sentiment value
contributes no filter at all. -/
theorem get_feedback_list_or_spec (db : List FEntry) (s c q t : Option Str)
    (e : FEntry) :
    ((buildFilters s c q t).isEmpty = false →
      (e ∈ get_feedback_list_rows db s c q t ↔
        e ∈ db ∧
          (sentMatch s e ∨ catMatch c e ∨ searchMatch q e ∨ tagMatch t e))) ∧
    (∀ sv, validate_sentiment (some sv) = none →
      buildFilters (some sv) c q t = buildFilters none c q t) := by
  constructor
  · intro hne
    unfold get_feedback_list_rows
    rw [if_neg (by rw [hne]; exact Bool.false_ne_true)]
    rw [List.mem_filter, buildFilters_any]
  · intro sv hv
    have : sentimentFilters (some sv) = [] := by
      by_cases hnil : sv = []
      · simp [sentimentFilters, hnil]
      · simp [sentimentFilters, hnil, hv]
    unfold buildFilters
    rw [this]
    rfl

/-- Witness for C7 at a concrete store and query. -/
theorem get_feedback_list_or_spec_witness :
    ⟨"positive".data, "Delivery".data, "slow delivery".data, []⟩ ∈
      get_feedback_list_rows
        [⟨"positive".data, "Delivery".data, "slow delivery".data, []⟩,
         ⟨"negative".data, "Pricing".data, "too costly".data, []⟩]
        (some "positive".data) (some "pric".data) none none ↔
    ⟨"positive".data, "Delivery".data, "slow delivery".data, []⟩ ∈
      ([⟨"positive".data, "Delivery".data, "slow delivery".data, []⟩,
        ⟨"negative".data, "Pricing".data, "too costly".data, []⟩] :
          List FEntry) ∧
      (sentMatch (some "positive".data)
          ⟨"positive".data, "Delivery".data, "slow delivery".data, []⟩ ∨
       catMatch (some "pric".data)
          ⟨"positive".data, "Delivery".data, "slow delivery".data, []⟩ ∨
       searchMatch none
          ⟨"positive".data, "Delivery".data, "slow delivery".data, []⟩ ∨
       tagMatch none
          ⟨"positive".data, "Delivery".data, "slow delivery".data, []⟩) :=
  (get_feedback_list_or_spec
    [⟨"positive".data, "Delivery".data, "slow delivery".data, []⟩,
     ⟨"negative".data, "Pricing".data, "too costly".data, []⟩]
    (some "positive".data) (some "pric".data) none none
    ⟨"positive".data, "Delivery".data, "slow delivery".data, []⟩).1 (by decide)

/-! ## Claim C8: recent-activity window keys -/

theorem backfillStep_mem {now : Nat} {act : List (Str × Nat)} {i : Nat}
    {p : Str × Nat} (h : p ∈ act) : p ∈ backfillStep now act i := by
  unfold backfillStep
  split_ifs
  · exact h
  · exact List.mem_append_left _ h

theorem backfillStep_any_mono {now : Nat} {act : List (Str × Nat)} {i : Nat}
    {k : Str} (h : act.any (fun p => p.1 == k) = true) :
    (backfillStep now act i).any (fun p => p.1 == k) = true := by
  unfold backfillStep
  split_ifs
  · exact h
  · simp only [List.any_append, h, Bool.true_or]

theorem backfillStep_any_self (now : Nat) (act : List (Str × Nat)) (i : Nat) :
    (backfillStep now act i).any
      (fun p => p.1 == dateStr ((now - i * secPerDay) / secPerDay)) = true := by
  unfold backfillStep
  split_ifs with h
  · exact h
  · simp

theorem foldlRange_any (now : Nat) (days : Nat) (act : List (Str × Nat))
    {i : Nat} (hi : i < days) :
    ((List.range days).foldl (backfillStep now) act).any
      (fun p => p.1 == dateStr ((now - i * secPerDay) / secPerDay)) = true := by
  induction days generalizing act with
  | zero => omega
  | succ d ih =>
    rw [List.range_succ, List.foldl_append]
    rcases Nat.lt_succ_iff_lt_or_eq.1 hi with h | rfl
    · exact backfillStep_any_mono (ih act h)
    · exact backfillStep_any_self now _ i

theorem foldlRange_decomp (now : Nat) (days : Nat) (act : List (Str × Nat)) :
    ∃ extra, (List.range days).foldl (backfillStep now) act = act ++ extra ∧
      ∀ p ∈ extra, p.2 = 0 ∧
        ∃ i, i < days ∧ p.1 = dateStr ((now - i * secPerDay) / secPerDay) := by
  induction days with
  | zero => exact ⟨[], by simp, by simp⟩
  | succ d ih =>
    obtain ⟨extra, heq, hprop⟩ := ih
    rw [List.range_succ, List.foldl_append, List.foldl_cons, List.foldl_nil, heq]
    unfold backfillStep
    split_ifs
    · exact ⟨extra, rfl, fun p hp =>
        ⟨(hprop p hp).1, by obtain ⟨i, hi, hk⟩ := (hprop p hp).2; exact ⟨i, by omega, hk⟩⟩⟩
    · refine ⟨extra ++ [(dateStr ((now - d * secPerDay) / secPerDay), 0)],
        by simp, ?_⟩
      intro p hp
      rcases List.mem_append.1 hp with hp | hp
      · exact ⟨(hprop p hp).1, by
          obtain ⟨i, hi, hk⟩ := (hprop p hp).2; exact ⟨i, by omega, hk⟩⟩
      · simp only [List.mem_singleton] at hp
        subst hp
        exact ⟨rfl, d, by omega, rfl⟩

theorem lookup_isSome_of_any {k : Str} {l : List (Str × Nat)}
    (h : l.any (fun p => p.1 == k) = true) : ∃ c, l.lookup k = some c := by
  induction l with
  | nil => simp at h
  | cons a tl ih =>
    obtain ⟨ak, av⟩ := a
    rw [List.any_cons, Bool.or_eq_true] at h
    by_cases hk : k = ak
    · exact ⟨av, by simp [List.lookup, hk]⟩
    · have htl : tl.any (fun p => p.1 == k) = true := by
        rcases h with h | h
        · rw [beq_iff_eq] at h
          exact absurd h.symm hk
        · exact h
      obtain ⟨c, hc⟩ := ih htl
      refine ⟨c, ?_⟩
      rw [List.lookup]
      have hkb : (k == ak) = false := by
        rw [beq_eq_false_iff_ne]
        exact hk
      rw [hkb]
      exact hc

theorem lookup_append_of_not_any {k : Str} {l₁ l₂ : List (Str × Nat)}
    (h : l₁.any (fun p => p.1 == k) = false) :
    (l₁ ++ l₂).lookup k = l₂.lookup k := by
  induction l₁ with
  | nil => simp
  | cons a tl ih =>
    obtain ⟨ak, av⟩ := a
    rw [List.any_cons, Bool.or_eq_false_iff] at h
    rw [List.cons_append, List.lookup]
    have hkb : (k == ak) = false := by
      rw [beq_eq_false_iff_ne]
      intro hc
      subst hc
      simp at h
    rw [hkb]
    exact ih h.2

theorem lookup_zero_of_all_zero {k : Str} {l : List (Str × Nat)}
    (hz : ∀ p ∈ l, p.2 = 0) (h : l.any (fun p => p.1 == k) = true) :
    l.lookup k = some 0 := by
  induction l with
  | nil => simp at h
  | cons a tl ih =>
    obtain ⟨ak, av⟩ := a
    rw [List.lookup]
    cases hkb : (k == ak) with
    | true =>
      have hav : av = 0 := hz (ak, av) (List.mem_cons_self _ tl)
      rw [hav]
    | false =>
      rw [List.any_cons, Bool.or_eq_true] at h
      refine ih (fun p hp => hz p (List.mem_cons_of_mem _ hp)) ?_
      rcases h with h | h
      · exfalso
        rw [beq_iff_eq] at h
        rw [beq_eq_false_iff_ne] at hkb
        exact hkb h.symm
      · exact h

/-- C8 counterexample: with `days = 7` at the concrete time
2026-10-12 14:00:00 UTC and a single entry created at
2026-10-05 15:00:00 UTC (inside the window, since the window starts
2026-10-05 14:00:00), the recent-activity map has 8 distinct keys, not
7: the stored entry contributes `2026-10-05`, which is outside the
backfilled range `2026-10-06 .. 2026-10-12`. -/
theorem get_recent_activity_eight_keys :
    ((get_recent_activity 1791813600 7 [1791212400]).map Prod.fst).Nodup ∧
    (get_recent_activity 1791813600 7 [1791212400]).length = 8 ∧
    (get_recent_activity 1791813600 7 [1791212400]).length ≠ 7 := by
  refine ⟨by decide, by decide, by decide⟩

/-- C8 (amended): the recent-activity map always contains one
`YYYY-MM-DD` key for each of the `days` calendar days ending at the
call date (those with no entries present with count 0), and every other
key comes from a grouped row, i.e. from the calendar day of some stored
entry inside the window `created_at ≥ now - days`; since that window
also intersects the calendar day `days` back, the map can carry
`days + 1` keys rather than exactly `days`. -/
theorem get_recent_activity_spec (now days : Nat) (es : List Nat) :
    (∀ i, i < days →
      ∃ c, (get_recent_activity now days es).lookup
        (dateStr ((now - i * secPerDay) / secPerDay)) = some c) ∧
    (∀ i, i < days →
      (sqlDailyRows now days es).any
        (fun p => p.1 == dateStr ((now - i * secPerDay) / secPerDay)) = false →
      (get_recent_activity now days es).lookup
        (dateStr ((now - i * secPerDay) / secPerDay)) = some 0) ∧
    (∀ p, p ∈ get_recent_activity now days es →
      p ∈ sqlDailyRows now days es ∨
        ∃ i, i < days ∧ p.1 = dateStr ((now - i * secPerDay) / secPerDay) ∧
          p.2 = 0) ∧
    (∀ p, p ∈ sqlDailyRows now days es →
      ∃ d, (∃ x ∈ es, now - days * secPerDay ≤ x ∧ x / secPerDay = d) ∧
        p.1 = dateStr d) := by
  refine ⟨?_, ?_, ?_, ?_⟩
  · intro i hi
    exact lookup_isSome_of_any (foldlRange_any now days _ hi)
  · intro i hi hrow
    obtain ⟨extra, heq, hprop⟩ := foldlRange_decomp now days (sqlDailyRows now days es)
    unfold get_recent_activity
    rw [heq, lookup_append_of_not_any hrow]
    have hany : ((sqlDailyRows now days es) ++ extra).any
        (fun p => p.1 == dateStr ((now - i * secPerDay) / secPerDay)) = true := by
      rw [← heq]
      exact foldlRange_any now days _ hi
    rw [List.any_append, hrow, Bool.false_or] at hany
    exact lookup_zero_of_all_zero (fun p hp => (hprop p hp).1) hany
  · intro p hp
    obtain ⟨extra, heq, hprop⟩ := foldlRange_decomp now days (sqlDailyRows now days es)
    unfold get_recent_activity at hp
    rw [heq] at hp
    rcases List.mem_append.1 hp with hp | hp
    · exact Or.inl hp
    · obtain ⟨hz, i, hi, hk⟩ := hprop p hp
      exact Or.inr ⟨i, hi, hk, hz⟩
  · intro p hp
    unfold sqlDailyRows at hp
    rw [List.mem_map] at hp
    obtain ⟨d, hd, rfl⟩ := hp
    have hd2 : d ∈ ((es.filter (fun t => now - days * secPerDay ≤ t)).map
        (fun t => t / secPerDay)).dedup :=
      (List.Perm.mem_iff (List.perm_insertionSort _ _)).1 hd
    rw [List.mem_dedup, List.mem_map] at hd2
    obtain ⟨x, hx, rfl⟩ := hd2
    rw [List.mem_filter] at hx
    exact ⟨x / secPerDay, ⟨x, hx.1, by simpa using hx.2, rfl⟩, rfl⟩

/-- Witness for C8 (amended) at concrete inputs. -/
theorem get_recent_activity_spec_witness :
    (∃ c, (get_recent_activity 1791813600 7 []).lookup
      (dateStr ((1791813600 - 0 * secPerDay) / secPerDay)) = some c) ∧
    (get_recent_activity 1791813600 7 []).lookup
      (dateStr ((1791813600 - 0 * secPerDay) / secPerDay)) = some 0 :=
  ⟨(get_recent_activity_spec 1791813600 7 []).1 0 (by norm_num),
   (get_recent_activity_spec 1791813600 7 []).2.1 0 (by norm_num) (by decide)⟩

/-! ## Claim C9: router aggregation refines the analytics service -/

theorem round2_zero : round2 0 = 0 := by
  have h0 : ratFloor 0 = 0 := by
    unfold ratFloor
    norm_num
  unfold round2 roundHalfEven
  rw [show (0 : ℚ) * 100 = 0 by norm_num, h0]
  rw [if_pos (by norm_num)]
  norm_num

theorem avgField_eq (x : Option ℚ) : routerAvgField x = serviceAvgField x := by
  cases x with
  | none => exact round2_zero.symm
  | some q =>
    by_cases hq : q = 0
    · simp [routerAvgField, serviceAvgField, hq, round2_zero]
    · simp [routerAvgField, serviceAvgField, hq]

theorem dictSet_any_mono {d : List (Str × Nat)} {k k' : Str} {v : Nat}
    (h : d.any (fun q => q.1 == k) = true) :
    (dictSet d k' v).any (fun q => q.1 == k) = true := by
  unfold dictSet
  split_ifs
  · rw [List.any_map]
    have : ((fun q : Str × Nat => q.1 == k) ∘
        fun p : Str × Nat => if p.1 == k' then (p.1, v) else p) =
        fun q : Str × Nat => q.1 == k := by
      funext p
      by_cases hp : p.1 == k'
      · simp [Function.comp, hp]
      · simp [Function.comp, hp]
    rw [this]
    exact h
  · simp only [List.any_append, h, Bool.true_or]

theorem fold_dist_eq {rows : List (Str × Nat)} {d : List (Str × Nat)}
    (h : ∀ p ∈ rows, d.any (fun q => q.1 == p.1) = true) :
    rows.foldl (fun d p => dictSet d p.1 p.2) d =
      rows.foldl
        (fun d p => if d.any (fun q => q.1 == p.1) then dictSet d p.1 p.2 else d)
        d := by
  induction rows generalizing d with
  | nil => rfl
  | cons r rest ih =>
    simp only [List.foldl_cons]
    rw [if_pos (h r (List.mem_cons_self r rest))]
    exact ih fun p hp => dictSet_any_mono (h p (List.mem_cons_of_mem _ hp))

theorem seed_any_of_literal {k : Str}
    (h : k = "positive".data ∨ k = "neutral".data ∨ k = "negative".data) :
    seedDistribution.any (fun q => q.1 == k) = true := by
  rcases h with rfl | rfl | rfl <;> decide

theorem sentiment_distribution_eq {db : List SEntry}
    (hinv : ∀ e ∈ db, e.sentiment = "positive".data ∨
      e.sentiment = "neutral".data ∨ e.sentiment = "negative".data) :
    routerSentimentDistribution db = serviceSentimentDistribution db := by
  unfold routerSentimentDistribution serviceSentimentDistribution
  apply fold_dist_eq
  intro p hp
  apply seed_any_of_literal
  unfold sqlSentimentRows at hp
  rw [List.mem_map] at hp
  obtain ⟨s, hs, rfl⟩ := hp
  rw [List.mem_dedup, List.mem_map] at hs
  obtain ⟨e, he, rfl⟩ := hs
  exact hinv e he

/-- C9: on every store satisfying the data-model invariants (sentiment
one of the three literals, confidences in `[0, 1]`), the aggregation
inlined in the `GET /api/stats` router and the four `AnalyticsService`
operations (total count, zero-seeded sentiment distribution, top
categories with rounded average confidence, average confidence scores,
plus the 7-day recent-activity map) produce equal output. -/
theorem stats_router_service_equiv (now : Nat) (db : List SEntry)
    (hinv : ∀ e ∈ db,
      (e.sentiment = "positive".data ∨ e.sentiment = "neutral".data ∨
        e.sentiment = "negative".data) ∧
      0 ≤ e.sentiment_confidence ∧ e.sentiment_confidence ≤ 1 ∧
      0 ≤ e.category_confidence ∧ e.category_confidence ≤ 1) :
    router_get_statistics now db = service_get_statistics now db := by
  unfold router_get_statistics service_get_statistics
  have hdist := sentiment_distribution_eq (fun e he => (hinv e he).1)
  have havg : routerAverageConfidence db = serviceAverageConfidence db := by
    unfold routerAverageConfidence serviceAverageConfidence
    rw [avgField_eq, avgField_eq, avgField_eq, avgField_eq]
  rw [hdist, havg]
  rfl

/-- Witness for C9 at a concrete store. -/
theorem stats_router_service_equiv_witness :
    router_get_statistics 1791813600
        [⟨"positive".data, 9/10, "Delivery".data, 4/5, 1791813000⟩] =
      service_get_statistics 1791813600
        [⟨"positive".data, 9/10, "Delivery".data, 4/5, 1791813000⟩] := by
  apply stats_router_service_equiv
  intro e he
  rw [List.mem_singleton] at he
  subst he
  refine ⟨Or.inl rfl, by norm_num, by norm_num, by norm_num, by norm_num⟩

end FA
